import Mathlib

/-
Verification development for the Ainaa clinic sales dashboard
(`dashboard.py`).  The file gives a shallow embedding of the data-bearing
parts of the script — CSV ingestion (`try_read_csv`), substring-based
column-role resolution, type coercion (`pd.to_numeric` / `pd.to_datetime`
with `errors='coerce'`), and the groupby/sum/sort aggregations of the
Home, Customer Profile and Products pages — and proves or refutes the
specification's claims about them.

Modelling conventions:
  * a pandas cell is `Cell`: a raw string, a number (`Rat`), a parsed
    date (encoded as `y*10000 + m*100 + d : Nat`, which preserves
    calendar order), or `null` (NaN / NaT / missing);
  * a `DataFrame` is `Table`: a column-name list plus a list of rows;
  * a raised Python exception is `Except.error (e : PyErr)`;
  * `pd.read_csv` is modelled by `read_csv`: header/body split on the
    delimiter, rows with more fields than the header are a parse error
    (`none`), shorter rows are padded with missing values, and a column
    whose non-missing entries all parse numerically is stored numeric
    (pandas dtype inference); quoting and exotic numeric/date formats
    are outside the modelled fragment;
  * `groupby(k)[v].sum()` drops null keys (pandas `dropna=True`) and
    lists group keys in ascending order (pandas `sort=True`);
  * `sort_values(ascending=False)` leaves the order of tied sums
    unspecified (its default numpy quicksort is not stable in general);
    the model fixes one concrete realization, a stable insertion sort.
    No universal theorem below depends on the tie order this choice
    fabricates — the proved ordering properties hold for any descending
    sort — and the one concrete tie-order evaluation (the C5
    counterexample, two groups) sits in the small-array regime where
    numpy's introsort is insertion sort and therefore agrees;
  * the Customer Profile page has three exception points after its
    in-place coercion, modelled in program order:
    `sorted(df[cust_col].unique())` (line 172) raises `TypeError` when
    the unique customer values are not mutually comparable,
    `selected.replace(' ','+')` in the card markup (line 181) raises
    `AttributeError` when the selected value is not a string, and
    `last_purchase.date()` (line 187) raises `ValueError` on NaT.
-/

/-- A pandas cell value: raw string, numeric, parsed date (ordered key
`y*10000+m*100+d`), or null (NaN / NaT). -/
inductive Cell where
  | str (s : String)
  | num (q : Rat)
  | date (k : Nat)
  | null
deriving DecidableEq

/-- Split a character list on a separator character (kept structural so
that concrete evaluation reduces in the kernel). -/
def splitCharsOn (sep : Char) : List Char → List (List Char)
  | [] => [[]]
  | c :: cs =>
    let r := splitCharsOn sep cs
    if c = sep then [] :: r
    else
      match r with
      | [] => [[c]]
      | g :: gs => (c :: g) :: gs

/-- Strip surrounding whitespace from a character list. -/
def trimChars (cs : List Char) : List Char :=
  ((cs.dropWhile Char.isWhitespace).reverse.dropWhile Char.isWhitespace).reverse

/-- Digits-only numeral reader; `none` on empty or non-digit input. -/
def natOfDigits (cs : List Char) : Option Nat :=
  if cs ≠ [] ∧ cs.all Char.isDigit then
    some (cs.foldl (fun n c => n * 10 + (c.toNat - 48)) 0)
  else none

/-- Rational addition through `mkRat`.  (The `Rat.add` of the ambient
library is `@[irreducible]`, which blocks kernel evaluation of concrete
tables; this equivalent form reduces.  `ratAdd_eq` bridges to `+`.) -/
def ratAdd (a b : Rat) : Rat := mkRat (a.num * b.den + b.num * a.den) (a.den * b.den)

theorem ratAdd_eq (a b : Rat) : ratAdd a b = a + b := by
  rw [Rat.add_def, Rat.normalize_eq_mkRat]
  rfl

/-- Sum of a list of rationals, in the reducible form. -/
def ratSum (l : List Rat) : Rat := l.foldr ratAdd 0

theorem ratSum_eq : ∀ l : List Rat, ratSum l = l.sum
  | [] => rfl
  | x :: l => by
    show ratAdd x (ratSum l) = (x :: l).sum
    rw [ratAdd_eq, ratSum_eq l, List.sum_cons]

/-- Rational division, in the reducible form (division by zero gives
zero, matching `Rat.div`).  `ratDiv_eq` bridges to `/`. -/
def ratDiv (a b : Rat) : Rat := Rat.divInt (a.num * b.den) (a.den * b.num)

theorem ratDiv_eq (a b : Rat) : ratDiv a b = a / b := by
  rw [Rat.div_def']
  rfl

/-- Numeric parsing as used by `pd.to_numeric` (and by `read_csv` dtype
inference): optional sign, integer part, optional fractional part.
Returns `none` (→ NaN) when the text is not numeric. -/
def parseNum (s : String) : Option Rat :=
  let cs := trimChars s.toList
  let signed : Bool × List Char :=
    match cs with
    | '-' :: rest => (true, rest)
    | '+' :: rest => (false, rest)
    | rest => (false, rest)
  let val : Option Rat :=
    match splitCharsOn '.' signed.2 with
    | [ip] => (natOfDigits ip).map (fun n => (n : Rat))
    | [ip, fp] =>
      match natOfDigits ip, natOfDigits fp with
      | some n, some f =>
        some (mkRat (Int.ofNat (n * 10 ^ fp.length + f)) (10 ^ fp.length))
      | _, _ => none
    | _ => none
  val.map (fun q => if signed.1 then -q else q)

/-- Date parsing as used by `pd.to_datetime(..., dayfirst=True)` on the
slash-separated day-first form `d/m/y`; anything else is unparseable and
becomes NaT (`none`), matching `errors='coerce'`. -/
def parseDate (s : String) : Option Nat :=
  match splitCharsOn '/' (trimChars s.toList) with
  | [dp, mp, yp] =>
    match natOfDigits dp, natOfDigits mp, natOfDigits yp with
    | some d, some m, some y =>
      if 1 ≤ d ∧ d ≤ 31 ∧ 1 ≤ m ∧ m ≤ 12 then some (y * 10000 + m * 100 + d)
      else none
    | _, _, _ => none
  | _ => none

/-- An in-memory DataFrame: column names plus rows of cells. -/
structure Table where
  cols : List String
  rows : List (List Cell)
deriving DecidableEq

/-- `pd.DataFrame()`: the zero-column zero-row table. -/
def Table.empty : Table := ⟨[], []⟩

/-- `df.empty`: true when either axis has length zero. -/
def Table.isEmpty (t : Table) : Bool := t.rows.isEmpty || t.cols.isEmpty

/-- Build one cell from a raw CSV field: empty field → missing; in a
numerically inferred column the field is stored as a number. -/
def mkCell (numCol : Bool) (raw : String) : Cell :=
  if raw = "" then Cell.null
  else if numCol then
    match parseNum raw with
    | some q => Cell.num q
    | none => Cell.str raw
  else Cell.str raw

/-- `pd.read_csv(io.StringIO(content), sep=sep)`.  Blank lines are
skipped; no lines at all is an `EmptyDataError` (`none`); a body row
with more fields than the header is a tokenizing `ParserError`
(`none`); shorter rows are padded with missing values; a column whose
non-missing fields all parse numerically gets a numeric dtype. -/
def read_csv (content : String) (sep : Char) : Option Table :=
  let lines := (splitCharsOn '\n' content.toList).filter (fun l => l ≠ [])
  match lines with
  | [] => none
  | header :: body =>
    let cols := (splitCharsOn sep header).map List.asString
    let raws := body.map (fun l => (splitCharsOn sep l).map List.asString)
    if raws.all (fun r => r.length ≤ cols.length) then
      let isNum : Nat → Bool := fun j =>
        raws.all (fun r => r.getD j "" = "" || (parseNum (r.getD j "")).isSome)
      some ⟨cols, raws.map (fun r => (List.range cols.length).map
        (fun j => mkCell (isNum j) (r.getD j "")))⟩
    else none

/-- The delimiter candidates of `try_read_csv`, in priority order. -/
def delimPriority : List Char := [',', '\t', ';']

/-- The loop body of `try_read_csv`: try each delimiter in order,
return the first table with more than one column (exceptions from
`read_csv` are swallowed), else the empty DataFrame. -/
def tryGo (content : String) : List Char → Table
  | [] => Table.empty
  | sep :: rest =>
    match read_csv content sep with
    | some df => if 1 < df.cols.length then df else tryGo content rest
    | none => tryGo content rest

/-- `try_read_csv` (dashboard.py lines 104–113): the `file.getvalue()
.decode("utf-8", errors="ignore")` step is modelled by taking the
already-decoded text as input. -/
def try_read_csv (content : String) : Table := tryGo content delimPriority

/-- Whether a delimiter "succeeds" for given content: `pd.read_csv`
raises no exception and yields more than one column. -/
def goodSep (content : String) (sep : Char) : Bool :=
  match read_csv content sep with
  | some df => decide (1 < df.cols.length)
  | none => false

example : some (try_read_csv "a,b\n1,2") = read_csv "a,b\n1,2" ',' := by decide
example : goodSep "a\tb\nx\ty" ',' = false := by decide
example : goodSep "a\tb\nx\ty" '\t' = true := by decide
example : try_read_csv "abc\nxyz" = Table.empty := by decide

/-- A raised Python exception, as observed by the Streamlit runner:
`IndexError` from `[0]` on an empty comprehension, `TypeError` from
`sorted()` over mutually incomparable values, `AttributeError` from
`.replace` on a non-string, `ValueError` from `NaT.date()`. -/
inductive PyErr where
  | indexError
  | typeError
  | attributeError
  | valueError
deriving DecidableEq

instance {ε α : Type} [DecidableEq ε] [DecidableEq α] : DecidableEq (Except ε α) := fun a b =>
  match a, b with
  | Except.error e, Except.error f =>
    match decEq e f with
    | Decidable.isTrue h => Decidable.isTrue (h ▸ rfl)
    | Decidable.isFalse h => Decidable.isFalse (fun c => h (Except.error.inj c))
  | Except.ok x, Except.ok y =>
    match decEq x y with
    | Decidable.isTrue h => Decidable.isTrue (h ▸ rfl)
    | Decidable.isFalse h => Decidable.isFalse (fun c => h (Except.ok.inj c))
  | Except.error _, Except.ok _ => Decidable.isFalse (fun c => Except.noConfusion c)
  | Except.ok _, Except.error _ => Decidable.isFalse (fun c => Except.noConfusion c)

/-- Case-insensitive substring test `needle in hay.lower()` (the needle
is supplied already lowercased, as in the source's literals). -/
def containsSub (needle hay : List Char) : Bool :=
  (List.range (hay.length + 1)).any (fun i => needle.isPrefixOf (hay.drop i))

/-- `c.lower()` on a column name. -/
def lowerChars (s : String) : List Char := s.toList.map Char.toLower

/-- `"date" in c.lower()` (dashboard.py lines 132, 168). -/
def isDateName (c : String) : Bool := containsSub "date".toList (lowerChars c)

/-- `"name" in c.lower() or "customer" in c.lower()` (lines 133, 166). -/
def isCustName (c : String) : Bool :=
  containsSub "name".toList (lowerChars c) || containsSub "customer".toList (lowerChars c)

/-- `"total" in c.lower() or "amount" in c.lower()` (lines 134, 167, 209). -/
def isAmtName (c : String) : Bool :=
  containsSub "total".toList (lowerChars c) || containsSub "amount".toList (lowerChars c)

/-- `"product" in c.lower() or "item" in c.lower()` (line 206). -/
def isProdName (c : String) : Bool :=
  containsSub "product".toList (lowerChars c) || containsSub "item".toList (lowerChars c)

/-- `[c for c in cols if p(c)][0]`: the first matching column, or an
`IndexError` when the comprehension is empty. -/
def firstMatch (p : String → Bool) (cols : List String) : Except PyErr String :=
  match cols.filter p with
  | [] => Except.error PyErr.indexError
  | c :: _ => Except.ok c

/-- Position of a column name in the header (first occurrence). -/
def Table.colIdx (t : Table) (c : String) : Nat := t.cols.indexOf c

/-- Cell of a row at a column position (missing position → null). -/
def cellAt (r : List Cell) (j : Nat) : Cell := r.getD j Cell.null

/-- `df[c]`: the column of cells under name `c`. -/
def Table.col (t : Table) (c : String) : List Cell := t.rows.map (fun r => cellAt r (t.colIdx c))

/-- The column of cells at position `j`. -/
def Table.colAt (t : Table) (j : Nat) : List Cell := t.rows.map (fun r => cellAt r j)

/-- `df[c] = f(df[c])`: replace the column under name `c` in place. -/
def Table.setCol (t : Table) (c : String) (f : Cell → Cell) : Table :=
  ⟨t.cols, t.rows.map (fun r => r.set (t.colIdx c) (f (cellAt r (t.colIdx c))))⟩

/-- `pd.to_numeric(cell, errors='coerce')` followed by `.fillna(0)`:
total, unparseable and missing cells become 0.  (A datetime cell never
occurs in an amount column of the modelled pipeline.) -/
def coerceAmtCell : Cell → Cell
  | Cell.str s => Cell.num ((parseNum s).getD 0)
  | Cell.num q => Cell.num q
  | Cell.null => Cell.num 0
  | Cell.date _ => Cell.num 0

/-- `pd.to_datetime(cell, errors='coerce', dayfirst=True)`: total,
unparseable and missing cells become NaT (`null`).  (The modelled
fragment covers string/missing date columns, the only kind the CSV
pipeline produces for slash-style dates.) -/
def coerceDateCell : Cell → Cell
  | Cell.str s =>
    match parseDate s with
    | some k => Cell.date k
    | none => Cell.null
  | Cell.date k => Cell.date k
  | Cell.num _ => Cell.null
  | Cell.null => Cell.null

/-- Numeric value of a cell for summation (`Series.sum` over a coerced
column; non-numeric contributes nothing). -/
def cellNum : Cell → Rat
  | Cell.num q => q
  | _ => 0

/-- Date key of a cell, `none` for NaT/non-date. -/
def dateVal : Cell → Option Nat
  | Cell.date k => some k
  | _ => none

/-- Constructor tag used to totalise the cell order across kinds (a real
pandas key column is homogeneous, so only the within-kind clauses are
ever exercised). -/
def cellTag : Cell → Nat
  | Cell.null => 0
  | Cell.num _ => 1
  | Cell.str _ => 2
  | Cell.date _ => 3

/-- Lexicographic comparison of character lists by code point — the
order pandas uses on string keys.  (The ambient `String` order is
position-based and does not kernel-reduce; this structural form
does.) -/
def charListLE : List Char → List Char → Bool
  | [], _ => true
  | _ :: _, [] => false
  | a :: as, b :: bs => if a = b then charListLE as bs else decide (a < b)

theorem charListLE_total : ∀ as bs : List Char, charListLE as bs = true ∨ charListLE bs as = true
  | [], _ => Or.inl rfl
  | _ :: _, [] => Or.inr rfl
  | a :: as, b :: bs => by
    by_cases hab : a = b
    · subst hab
      simp only [charListLE, if_pos rfl]
      exact charListLE_total as bs
    · simp only [charListLE, if_neg hab, if_neg (Ne.symm hab), decide_eq_true_eq]
      exact lt_or_gt_of_ne hab

theorem charListLE_trans : ∀ as bs cs : List Char,
    charListLE as bs = true → charListLE bs cs = true → charListLE as cs = true
  | [], _, _, _, _ => rfl
  | _ :: _, [], _, h, _ => by simp [charListLE] at h
  | _ :: _, _ :: _, [], _, h => by simp [charListLE] at h
  | a :: as, b :: bs, c :: cs, h1, h2 => by
    simp only [charListLE] at h1 h2 ⊢
    by_cases hab : a = b
    · subst hab
      rw [if_pos rfl] at h1
      by_cases hac : a = c
      · subst hac
        rw [if_pos rfl] at h2 ⊢
        exact charListLE_trans as bs cs h1 h2
      · rw [if_neg hac] at h2 ⊢
        exact h2
    · rw [if_neg hab] at h1
      by_cases hbc : b = c
      · subst hbc
        rw [if_neg hab]
        exact h1
      · rw [if_neg hbc] at h2
        have hlt : a < c := lt_trans (of_decide_eq_true h1) (of_decide_eq_true h2)
        rw [if_neg (ne_of_lt hlt)]
        exact decide_eq_true hlt

theorem charListLE_antisymm : ∀ as bs : List Char,
    charListLE as bs = true → charListLE bs as = true → as = bs
  | [], [], _, _ => rfl
  | [], _ :: _, _, h => by simp [charListLE] at h
  | _ :: _, [], h, _ => by simp [charListLE] at h
  | a :: as, b :: bs, h1, h2 => by
    simp only [charListLE] at h1 h2
    by_cases hab : a = b
    · subst hab
      rw [if_pos rfl] at h1 h2
      rw [charListLE_antisymm as bs h1 h2]
    · rw [if_neg hab] at h1
      rw [if_neg (Ne.symm hab)] at h2
      exact absurd (lt_trans (of_decide_eq_true h1) (of_decide_eq_true h2)) (lt_irrefl a)

/-- The ascending order pandas uses on group keys: numeric, string and
date keys by their own order. -/
def cellLE : Cell → Cell → Bool
  | Cell.num a, Cell.num b => decide (a ≤ b)
  | Cell.str a, Cell.str b => charListLE a.toList b.toList
  | Cell.date a, Cell.date b => decide (a ≤ b)
  | a, b => decide (cellTag a ≤ cellTag b)

/-- `cellLE` as a proposition. -/
def cellRel (a b : Cell) : Prop := cellLE a b = true

/-- Strict version of the key order. -/
def cellLT (a b : Cell) : Prop := cellRel a b ∧ a ≠ b

instance : DecidableRel cellRel := fun _ _ => inferInstanceAs (Decidable (_ = true))

theorem cellLE_total (a b : Cell) : cellLE a b = true ∨ cellLE b a = true := by
  cases a <;> cases b <;>
    simp only [cellLE, decide_eq_true_eq, cellTag] <;>
    first
      | exact le_total _ _
      | exact charListLE_total _ _
      | omega

theorem cellLE_trans {a b c : Cell} (hab : cellLE a b = true) (hbc : cellLE b c = true) :
    cellLE a c = true := by
  cases a <;> cases b <;> cases c <;>
    simp only [cellLE, decide_eq_true_eq, cellTag] at hab hbc ⊢ <;>
    first
      | omega
      | exact le_trans hab hbc
      | exact charListLE_trans _ _ _ hab hbc
      | exact absurd hab (by omega)
      | exact absurd hbc (by omega)

theorem string_toList_inj {a b : String} (h : a.toList = b.toList) : a = b := by
  cases a
  cases b
  simp only [String.toList] at h
  exact congrArg String.mk h

theorem cellLE_antisymm {a b : Cell} (hab : cellLE a b = true) (hba : cellLE b a = true) :
    a = b := by
  cases a <;> cases b <;>
    simp only [cellLE, decide_eq_true_eq, cellTag] at hab hba <;>
    first
      | rfl
      | exact absurd hab (by omega)
      | exact absurd hba (by omega)
      | exact congrArg _ (string_toList_inj (charListLE_antisymm _ _ hab hba))
      | exact congrArg _ (le_antisymm hab hba)

instance : IsTotal Cell cellRel := ⟨cellLE_total⟩
instance : IsTrans Cell cellRel := ⟨fun _ _ _ => cellLE_trans⟩

/-- The order used by `sort_values(ascending=False)` on (key, sum)
pairs: compare the summed values, larger first. -/
def descRel (a b : Cell × Rat) : Prop := b.2 ≤ a.2

instance : DecidableRel descRel := fun a b => inferInstanceAs (Decidable (b.2 ≤ a.2))
instance : IsTotal (Cell × Rat) descRel := ⟨fun a b => le_total b.2 a.2⟩
instance : IsTrans (Cell × Rat) descRel := ⟨fun _ _ _ hab hbc => le_trans hbc hab⟩

/-- Sum of the values attached to a given key. -/
def sumFor (ps : List (Cell × Rat)) (k : Cell) : Rat :=
  ratSum ((ps.filter (fun p => p.1 = k)).map (fun p => p.2))

/-- `df.groupby(k)[v].sum()`: null keys are dropped (pandas
`dropna=True`) and the group keys are listed ascending (`sort=True`). -/
def groupbySum (pairs : List (Cell × Rat)) : List (Cell × Rat) :=
  let ps := pairs.filter (fun p => p.1 ≠ Cell.null)
  let keys := List.insertionSort cellRel (ps.map (fun p => p.1)).dedup
  keys.map (fun k => (k, sumFor ps k))

/-- `.sort_values(ascending=False)`: descending sort by sum.  The
program does not guarantee any particular order between tied sums (the
pandas default `kind='quicksort'` is numpy introsort, stable only in
its small-array insertion-sort regime), so the model fixes one concrete
realization — a stable insertion sort.  No universal theorem relies on
the tie order of this choice: the ordering facts proved below hold for
any descending sort. -/
def sortDescBySum (l : List (Cell × Rat)) : List (Cell × Rat) :=
  List.insertionSort descRel l

/-- `groupby(k)[v].sum().sort_values(ascending=False).head(limit)`
(dashboard.py lines 157 and 210). -/
def topGroups (limit : Nat) (pairs : List (Cell × Rat)) : List (Cell × Rat) :=
  (sortDescBySum (groupbySum pairs)).take limit

/-- The (key, value) pairs a groupby draws from a table: key cell and
the numeric value of the aggregated cell, row by row. -/
def keyedPairs (t : Table) (keyCol valCol : String) : List (Cell × Rat) :=
  t.rows.map (fun r => (cellAt r (t.colIdx keyCol), cellNum (cellAt r (t.colIdx valCol))))

/-- `df.groupby(date_col)[amt_col].sum().reset_index()` (lines 151 and
196): the sales-trend aggregation. -/
def trendByDate (t : Table) (dateCol amtCol : String) : List (Cell × Rat) :=
  groupbySum (keyedPairs t dateCol amtCol)

/-- `Series.nunique()`: distinct non-null values. -/
def nunique (cells : List Cell) : Nat :=
  ((cells.filter (fun c => c ≠ Cell.null)).dedup).length

/-- Maximum of a list of naturals, `none` when empty. -/
def maxNat? : List Nat → Option Nat
  | [] => none
  | x :: xs => some (xs.foldl max x)

/-- `Series.max()` over a datetime column: NaT entries are skipped, the
result is NaT (`none`) when every entry is NaT. -/
def seriesMaxDate (cells : List Cell) : Option Nat := maxNat? (cells.filterMap dateVal)


/-- `last_purchase.date()` in the profile-card markup (line 187): a real
timestamp renders its calendar date; NaT raises
`ValueError: NaTType does not support date`. -/
def renderLastPurchase : Option Nat → Except PyErr Nat
  | some k => Except.ok k
  | none => Except.error PyErr.valueError

/-- Insert into a Bool-ordered list (used for the order-history sort). -/
def insertB {α : Type} (le : α → α → Bool) (x : α) : List α → List α
  | [] => [x]
  | y :: ys => if le x y then x :: y :: ys else y :: insertB le x ys

/-- Stable insertion sort under a Bool order. -/
def sortB {α : Type} (le : α → α → Bool) : List α → List α
  | [] => []
  | x :: xs => insertB le x (sortB le xs)

/-- Row order of `data.sort_values(date_col, ascending=False)` (line
193): descending by date, NaT rows last (`na_position='last'`). -/
def rowDateDescLE (j : Nat) (r1 r2 : List Cell) : Bool :=
  match dateVal (cellAt r1 j), dateVal (cellAt r2 j) with
  | some a, some b => decide (b ≤ a)
  | some _, none => true
  | none, some _ => false
  | none, none => true

/-- What the Home page computes (lines 139–158). -/
structure HomeResult where
  totalSales : Rat
  totalOrders : Nat
  totalCustomers : Nat
  avgOrder : Rat
  trend : List (Cell × Rat)
  topCustomers : List (Cell × Rat)
deriving DecidableEq

/-- The Home page (dashboard.py lines 125–159).  Returns the table as
left behind by the page — the coercions on lines 136–137 assign back
into `df`, which is the very object held in `st.session_state["df"]` —
together with either the computed overview (`ok some`), the
empty-table warning branch (`ok none`), or a raised exception. -/
def homeView (df : Table) : Table × Except PyErr (Option HomeResult) :=
  if df.isEmpty then (df, Except.ok none)
  else
    match firstMatch isDateName df.cols with
    | Except.error e => (df, Except.error e)
    | Except.ok date_col =>
      match firstMatch isCustName df.cols with
      | Except.error e => (df, Except.error e)
      | Except.ok cust_col =>
        match firstMatch isAmtName df.cols with
        | Except.error e => (df, Except.error e)
        | Except.ok amt_col =>
          let df1 := (df.setCol date_col coerceDateCell).setCol amt_col coerceAmtCell
          let total_sales := ratSum ((df1.col amt_col).map cellNum)
          let total_orders := df1.rows.length
          let total_customers := nunique (df1.col cust_col)
          let avg_order := if total_orders ≠ 0 then ratDiv total_sales (total_orders : Rat) else 0
          (df1, Except.ok (some
            { totalSales := total_sales
              totalOrders := total_orders
              totalCustomers := total_customers
              avgOrder := avg_order
              trend := trendByDate df1 date_col amt_col
              topCustomers := topGroups 10 (keyedPairs df1 cust_col amt_col) }))

/-- What the Customer Profile page computes (lines 172–198). -/
structure ProfileResult where
  totalSpend : Rat
  orderCount : Nat
  avgOrder : Rat
  lastPurchase : Option Nat
  lastPurchaseShown : Nat
  avatarName : List Char
  history : List (List Cell)
  trend : List (Cell × Rat)
deriving DecidableEq

/-- Whether Python can order two cell values: values of the same kind
compare among themselves; a missing value compares with numbers (NaN is
a float) and with datetimes (in a datetime column the missing value is
NaT), but comparing a float NaN with a string raises, as does any other
cross-kind comparison. -/
def cellCmpOK : Cell → Cell → Bool
  | Cell.str _, Cell.str _ => true
  | Cell.num _, Cell.num _ => true
  | Cell.date _, Cell.date _ => true
  | Cell.null, Cell.null => true
  | Cell.null, Cell.num _ => true
  | Cell.num _, Cell.null => true
  | Cell.null, Cell.date _ => true
  | Cell.date _, Cell.null => true
  | _, _ => false

/-- Whether `sorted(df[cust_col].unique())` (line 172) raises
`TypeError`: it does exactly when the column holds two values Python
cannot order against each other (deduplication does not change which
kinds are present). -/
def sortUniqueRaises (cells : List Cell) : Bool :=
  cells.any (fun a => cells.any (fun b => !cellCmpOK a b))

/-- `selected.replace(' ','+')` in the avatar URL of the profile card
(line 181, evaluated before the `last_purchase.date()` of line 187): a
string has spaces replaced; any non-string selection raises
`AttributeError`, since floats, ints and timestamps have no
`.replace`. -/
def renderSelected : Cell → Except PyErr (List Char)
  | Cell.str s => Except.ok (s.toList.map (fun c => if c = ' ' then '+' else c))
  | _ => Except.error PyErr.attributeError

/-- `data = df[df[cust_col] == selected]` (line 173): the rows of the
chosen customer. -/
def profileRows (t : Table) (cc : String) (sel : Cell) : List (List Cell) :=
  t.rows.filter (fun r => cellAt r (t.colIdx cc) = sel)

/-- `total_spend = data[amt_col].sum()` (line 175). -/
def profileSpend (t : Table) (cc ac : String) (sel : Cell) : Rat :=
  ratSum ((profileRows t cc sel).map (fun r => cellNum (cellAt r (t.colIdx ac))))

/-- `last_purchase = data[date_col].max()` (line 176): NaT entries are
skipped, `none` (NaT) when the filtered rows have no parseable date. -/
def profileLastPurchase (t : Table) (cc dc : String) (sel : Cell) : Option Nat :=
  seriesMaxDate ((profileRows t cc sel).map (fun r => cellAt r (t.colIdx dc)))

/-- Everything the Customer Profile page does after the in-place
coercion, on the already-coerced table (lines 172–198), in program
order: the customer selectbox sorts the unique customer values (line
172, may raise `TypeError`); the card markup then renders the avatar
URL from `selected` (line 181, may raise `AttributeError`) and the last
purchase date (line 187, may raise `ValueError`); otherwise the profile
record is produced. -/
def profileOutcome (df1 : Table) (cust_col amt_col date_col : String) (selected : Cell) :
    Except PyErr (Option ProfileResult) :=
  if sortUniqueRaises (df1.col cust_col) then Except.error PyErr.typeError
  else
    match renderSelected selected with
    | Except.error e => Except.error e
    | Except.ok avatar =>
      match renderLastPurchase (profileLastPurchase df1 cust_col date_col selected) with
      | Except.error e => Except.error e
      | Except.ok shown =>
        Except.ok (some
          { totalSpend := profileSpend df1 cust_col amt_col selected
            orderCount := (profileRows df1 cust_col selected).length
            avgOrder :=
              if (profileRows df1 cust_col selected).length ≠ 0 then
                ratDiv (profileSpend df1 cust_col amt_col selected)
                  ((profileRows df1 cust_col selected).length : Rat)
              else 0
            lastPurchase := profileLastPurchase df1 cust_col date_col selected
            lastPurchaseShown := shown
            avatarName := avatar
            history :=
              sortB (rowDateDescLE (df1.colIdx date_col)) (profileRows df1 cust_col selected)
            trend := groupbySum ((profileRows df1 cust_col selected).map (fun r =>
              (cellAt r (df1.colIdx date_col), cellNum (cellAt r (df1.colIdx amt_col))))) })

/-- The Customer Profile page (dashboard.py lines 161–198) for a chosen
customer value.  As on the Home page the coercions (lines 169–170)
mutate the session-held table; every later step (the selectbox sort of
line 172 and the card rendering of lines 179–190) sees — and on an
exception leaves behind — the coerced table. -/
def customerProfileView (df : Table) (selected : Cell) :
    Table × Except PyErr (Option ProfileResult) :=
  if df.isEmpty then (df, Except.ok none)
  else
    match firstMatch isCustName df.cols with
    | Except.error e => (df, Except.error e)
    | Except.ok cust_col =>
      match firstMatch isAmtName df.cols with
      | Except.error e => (df, Except.error e)
      | Except.ok amt_col =>
        match firstMatch isDateName df.cols with
        | Except.error e => (df, Except.error e)
        | Except.ok date_col =>
          let df1 := (df.setCol amt_col coerceAmtCell).setCol date_col coerceDateCell
          (df1, profileOutcome df1 cust_col amt_col date_col selected)

/-- The Products page (dashboard.py lines 204–214).  Only the product
role is guarded by a presence check (`if prod_col:`); the amount role
is looked up with a bare `[0]`, and the amount column is used without
numeric coercion.  The page never mutates the table. -/
def productsView (df : Table) : Except PyErr (Option (List (Cell × Rat))) :=
  match df.cols.filter isProdName with
  | [] => Except.ok none
  | prod :: _ =>
    match firstMatch isAmtName df.cols with
    | Except.error e => Except.error e
    | Except.ok amt_col =>
      Except.ok (some (topGroups 20 (keyedPairs df prod amt_col)))

/-- The trend aggregation as the specification's sentence describes it
(null-date rows kept as their own bucket, placed last): the comparison
target used to settle C3 against the code's behaviour. -/
def trendByDateSpecified (t : Table) (dateCol amtCol : String) : List (Cell × Rat) :=
  let ps := keyedPairs t dateCol amtCol
  let nullRows := ps.filter (fun p => p.1 = Cell.null)
  if nullRows = [] then groupbySum ps
  else groupbySum ps ++ [(Cell.null, ratSum (nullRows.map (fun p => p.2)))]

/-- First-occurrence deduplication (key order of first encounter). -/
def dedupKeepFirst : List Cell → List Cell
  | [] => []
  | x :: xs => x :: (dedupKeepFirst xs).filter (fun y => y ≠ x)

/-- The top-N aggregation as the specification's sentence describes it
(stable descending sort over groups listed in first-encountered order):
the comparison target used to settle C5 against the code's behaviour. -/
def topGroupsSpecified (limit : Nat) (pairs : List (Cell × Rat)) : List (Cell × Rat) :=
  let ps := pairs.filter (fun p => p.1 ≠ Cell.null)
  let keys := dedupKeepFirst (ps.map (fun p => p.1))
  (List.insertionSort descRel (keys.map (fun k => (k, sumFor ps k)))).take limit

/-! ### Helper lemmas about the ingestion loop -/

theorem tryGo_skip {content : String} {sep : Char} (rest : List Char)
    (h : goodSep content sep = false) :
    tryGo content (sep :: rest) = tryGo content rest := by
  unfold goodSep at h
  show (match read_csv content sep with
    | some df => if 1 < df.cols.length then df else tryGo content rest
    | none => tryGo content rest) = tryGo content rest
  cases hr : read_csv content sep with
  | none => rfl
  | some df =>
    rw [hr] at h
    simp only [decide_eq_false_iff_not] at h
    simp [h]

theorem tryGo_hit {content : String} {sep : Char} {df : Table} (rest : List Char)
    (hr : read_csv content sep = some df) (hgt : 1 < df.cols.length) :
    tryGo content (sep :: rest) = df := by
  show (match read_csv content sep with
    | some df => if 1 < df.cols.length then df else tryGo content rest
    | none => tryGo content rest) = df
  rw [hr]
  simp [hgt]

theorem goodSep_spec {content : String} {sep : Char} (h : goodSep content sep = true) :
    ∃ df, read_csv content sep = some df ∧ 1 < df.cols.length := by
  unfold goodSep at h
  cases hr : read_csv content sep with
  | none => rw [hr] at h; exact absurd h (by simp)
  | some df =>
    rw [hr] at h
    simp only [decide_eq_true_eq] at h
    exact ⟨df, rfl, h⟩

/-- C2: for input text where some delimiter in the fixed priority order
comma, tab, semicolon yields a table with more than one column — i.e.
the first "good" delimiter exists in the sense of `List.find?` over the
priority list — `try_read_csv` returns exactly the table parsed with
that first good delimiter. -/
theorem try_read_csv_uses_first_good_delimiter (content : String) (sep : Char)
    (h : delimPriority.find? (goodSep content) = some sep) :
    goodSep content sep = true
    ∧ some (try_read_csv content) = read_csv content sep := by
  unfold try_read_csv
  rw [show delimPriority = [',', '\t', ';'] from rfl] at h ⊢
  cases h0 : goodSep content ',' with
  | true =>
    rw [List.find?_cons_of_pos _ h0] at h
    injection h with h'
    subst h'
    obtain ⟨df, hr, hgt⟩ := goodSep_spec h0
    exact ⟨h0, by rw [tryGo_hit _ hr hgt, hr]⟩
  | false =>
    rw [List.find?_cons_of_neg _ (by simp [h0])] at h
    rw [tryGo_skip _ h0]
    cases h1 : goodSep content '\t' with
    | true =>
      rw [List.find?_cons_of_pos _ h1] at h
      injection h with h'
      subst h'
      obtain ⟨df, hr, hgt⟩ := goodSep_spec h1
      exact ⟨h1, by rw [tryGo_hit _ hr hgt, hr]⟩
    | false =>
      rw [List.find?_cons_of_neg _ (by simp [h1])] at h
      rw [tryGo_skip _ h1]
      cases h2 : goodSep content ';' with
      | true =>
        rw [List.find?_cons_of_pos _ h2] at h
        injection h with h'
        subst h'
        obtain ⟨df, hr, hgt⟩ := goodSep_spec h2
        exact ⟨h2, by rw [tryGo_hit _ hr hgt, hr]⟩
      | false =>
        rw [List.find?_cons_of_neg _ (by simp [h2]), List.find?_nil] at h
        exact absurd h (by simp)

/-- Witness for C2: the spec's own scenario, a semicolon-delimited file
whose header is `Product;Qty;Amount`; comma and tab both fail to give
more than one column, so the semicolon parse is returned. -/
theorem try_read_csv_uses_first_good_delimiter_witness :
    delimPriority.find? (goodSep "Product;Qty;Amount\nSerum;1;80") = some ';'
    ∧ (goodSep "Product;Qty;Amount\nSerum;1;80" ';' = true
        ∧ some (try_read_csv "Product;Qty;Amount\nSerum;1;80")
            = read_csv "Product;Qty;Amount\nSerum;1;80" ';') :=
  ⟨by decide,
    try_read_csv_uses_first_good_delimiter "Product;Qty;Amount\nSerum;1;80" ';' (by decide)⟩

/-- C9: when no delimiter in the priority list yields a table with more
than one column, `try_read_csv` returns the zero-row zero-column table
(the designed no-usable-data signal) and raises nothing. -/
theorem try_read_csv_empty_when_no_good_delimiter (content : String)
    (h : ∀ sep ∈ delimPriority, goodSep content sep = false) :
    try_read_csv content = Table.empty := by
  have h0 := h ',' (by decide)
  have h1 := h '\t' (by decide)
  have h2 := h ';' (by decide)
  unfold try_read_csv
  rw [show delimPriority = [',', '\t', ';'] from rfl,
    tryGo_skip _ h0, tryGo_skip _ h1, tryGo_skip _ h2]
  rfl

/-- Witness for C9: prose with no delimiter at all parses to one column
under every candidate, so the empty table comes back. -/
theorem try_read_csv_empty_when_no_good_delimiter_witness :
    goodSep "ainaa dashboard notes" ',' = false
    ∧ try_read_csv "ainaa dashboard notes" = Table.empty :=
  ⟨by decide,
    try_read_csv_empty_when_no_good_delimiter "ainaa dashboard notes"
      (fun sep hs => by
        simp only [delimPriority, List.mem_cons, List.not_mem_nil, or_false] at hs
        rcases hs with rfl | rfl | rfl <;> decide)⟩

/-! ### Helper lemmas about role resolution -/

theorem firstMatch_error_of_none {p : String → Bool} {cols : List String}
    (h : ∀ c ∈ cols, p c = false) :
    firstMatch p cols = Except.error PyErr.indexError := by
  unfold firstMatch
  rw [List.filter_eq_nil_iff.mpr (fun c hc => by simp [h c hc])]

theorem firstMatch_error_elim {p : String → Bool} {cols : List String} {e : PyErr}
    (h : firstMatch p cols = Except.error e) : e = PyErr.indexError := by
  unfold firstMatch at h
  cases df : cols.filter p with
  | nil => rw [df] at h; injection h with h'; exact h'.symm
  | cons c rest => rw [df] at h; cases h

/-- The concrete table of C1's counterexample: headers resolve the
customer and amount roles but no header contains "date". -/
def dfNoDate : Table := ⟨["Customer", "Total"], [[Cell.str "Ali", Cell.num 10]]⟩

/-- Counterexample to C1 as stated: on a non-empty table with no
date-like column, the Home page and the Customer Profile page do not
return an explicit unresolved-role result — the bare `[0]` on the empty
comprehension raises `IndexError`. -/
theorem home_and_profile_raise_counterexample :
    dfNoDate.isEmpty = false
    ∧ dfNoDate.cols.filter isDateName = []
    ∧ (homeView dfNoDate).2 = Except.error PyErr.indexError
    ∧ (customerProfileView dfNoDate (Cell.str "Ali")).2 = Except.error PyErr.indexError := by
  decide

/-- C1 amended: with no date-like column on a non-empty table, role
resolution's `[0]` indexing raises `IndexError` in both the Home
overview and the Customer Profile view (the exception props out before
any mutation: the table is left untouched); no explicit unresolved-role
result is produced. -/
theorem home_and_profile_raise_without_date (df : Table) (hne : df.isEmpty = false)
    (hnodate : ∀ c ∈ df.cols, isDateName c = false) :
    (homeView df).1 = df ∧ (homeView df).2 = Except.error PyErr.indexError
    ∧ ∀ sel : Cell, (customerProfileView df sel).1 = df
        ∧ (customerProfileView df sel).2 = Except.error PyErr.indexError := by
  have hd : firstMatch isDateName df.cols = Except.error PyErr.indexError :=
    firstMatch_error_of_none hnodate
  refine ⟨?_, ?_, ?_⟩
  · simp [homeView, hne, hd]
  · simp [homeView, hne, hd]
  · intro sel
    cases hcc : firstMatch isCustName df.cols with
    | error e =>
      obtain rfl := firstMatch_error_elim hcc
      constructor <;> simp [customerProfileView, hne, hcc]
    | ok cust_col =>
      cases hac : firstMatch isAmtName df.cols with
      | error e =>
        obtain rfl := firstMatch_error_elim hac
        constructor <;> simp [customerProfileView, hne, hcc, hac]
      | ok amt_col =>
        constructor <;> simp [customerProfileView, hne, hcc, hac, hd]

/-- Witness for the amended C1 at a concrete table and selection. -/
theorem home_and_profile_raise_without_date_witness :
    dfNoDate.isEmpty = false
    ∧ (customerProfileView dfNoDate (Cell.str "Bee")).2 = Except.error PyErr.indexError :=
  ⟨by decide,
    ((home_and_profile_raise_without_date dfNoDate (by decide)
      (fun c hc => by fin_cases hc <;> decide)).2.2 (Cell.str "Bee")).2⟩

/-- The concrete table of C10's witness: a product-like column exists
but no amount-like column does. -/
def dfItemOnly : Table := ⟨["Item", "Qty"], [[Cell.str "Serum", Cell.num 2]]⟩

/-- C10: on a table whose headers contain a product/item column but no
total/amount column, the Products page raises `IndexError`: only the
product role is guarded by a presence check, the amount role is
indexed bare. -/
theorem productsView_raises_without_amount_role (df : Table)
    (hprod : df.cols.filter isProdName ≠ [])
    (hnoamt : ∀ c ∈ df.cols, isAmtName c = false)
    (hrows : df.rows ≠ []) :
    productsView df = Except.error PyErr.indexError := by
  have ha : firstMatch isAmtName df.cols = Except.error PyErr.indexError :=
    firstMatch_error_of_none hnoamt
  unfold productsView
  cases hp : df.cols.filter isProdName with
  | nil => exact absurd hp hprod
  | cons prod rest => rw [ha]

/-- Witness for C10 at a concrete table. -/
theorem productsView_raises_without_amount_role_witness :
    dfItemOnly.cols.filter isProdName ≠ []
    ∧ productsView dfItemOnly = Except.error PyErr.indexError :=
  ⟨by decide,
    productsView_raises_without_amount_role dfItemOnly (by decide)
      (fun c hc => by fin_cases hc <;> decide) (by decide)⟩

/-! ### Helper lemmas about in-place column replacement -/

theorem getD_set_ne {r : List Cell} {i j : Nat} (h : i ≠ j) (v d : Cell) :
    (r.set i v).getD j d = r.getD j d := by
  simp [List.getD_eq_getElem?_getD, List.getElem?_set_ne h]

theorem setCol_cols (t : Table) (c : String) (f : Cell → Cell) :
    (t.setCol c f).cols = t.cols := rfl

theorem setCol_rows_length (t : Table) (c : String) (f : Cell → Cell) :
    (t.setCol c f).rows.length = t.rows.length := by
  simp [Table.setCol]

theorem colAt_setCol_ne (t : Table) (c : String) (f : Cell → Cell) {j : Nat}
    (h : j ≠ t.colIdx c) :
    (t.setCol c f).colAt j = t.colAt j := by
  unfold Table.colAt Table.setCol
  rw [List.map_map]
  refine List.map_congr_left (fun r hr => ?_)
  exact getD_set_ne (fun e => h e.symm) _ _

/-- The successful Home page run, written out: roles resolved, coercion
applied in place, metrics and aggregations computed on the coerced
table. -/
theorem homeView_eq_ok (df : Table) (dc cc ac : String)
    (hdc : firstMatch isDateName df.cols = Except.ok dc)
    (hcc : firstMatch isCustName df.cols = Except.ok cc)
    (hac : firstMatch isAmtName df.cols = Except.ok ac)
    (hne : df.isEmpty = false) :
    homeView df =
      ((df.setCol dc coerceDateCell).setCol ac coerceAmtCell,
        Except.ok (some
          { totalSales :=
              ratSum ((((df.setCol dc coerceDateCell).setCol ac coerceAmtCell).col ac).map cellNum)
            totalOrders := ((df.setCol dc coerceDateCell).setCol ac coerceAmtCell).rows.length
            totalCustomers :=
              nunique (((df.setCol dc coerceDateCell).setCol ac coerceAmtCell).col cc)
            avgOrder :=
              if ((df.setCol dc coerceDateCell).setCol ac coerceAmtCell).rows.length ≠ 0 then
                ratDiv
                  (ratSum ((((df.setCol dc coerceDateCell).setCol ac coerceAmtCell).col ac).map
                    cellNum))
                  (((df.setCol dc coerceDateCell).setCol ac coerceAmtCell).rows.length : Rat)
              else 0
            trend := trendByDate ((df.setCol dc coerceDateCell).setCol ac coerceAmtCell) dc ac
            topCustomers :=
              topGroups 10
                (keyedPairs ((df.setCol dc coerceDateCell).setCol ac coerceAmtCell) cc ac) })) := by
  simp [homeView, hne, hdc, hcc, hac]

/-- The concrete table of C4's counterexample: parsed from bytes whose
date column is a raw string column and whose amount column contains a
non-numeric entry. -/
def dfMut : Table := try_read_csv "Date,Customer,Total\n01/02/2024,Ali,10\nbad,Bee,oops"

/-- Counterexample to C4 as stated: running the Home view leaves the
session-held table changed — the raw string date and amount cells have
been replaced in place by their coerced values. -/
theorem homeView_mutates_counterexample :
    (homeView dfMut).1 ≠ dfMut
    ∧ dfMut.colAt 0 = [Cell.str "01/02/2024", Cell.str "bad"]
    ∧ (homeView dfMut).1.colAt 0 = [Cell.date 20240201, Cell.null]
    ∧ dfMut.colAt 2 = [Cell.str "10", Cell.str "oops"]
    ∧ (homeView dfMut).1.colAt 2 = [Cell.num 10, Cell.num 0] := by
  decide


/-- The overview record produced by a Home page run, `none` when the
page warned (empty table) or raised. -/
def homeResultOf (df : Table) : Option HomeResult :=
  match (homeView df).2 with
  | Except.ok r => r
  | Except.error _ => none

/-- C6: on a table with resolved date, customer and amount roles, the
Home overview's metrics are: totalSales the sum of the coerced amount
column, totalOrders the row count, totalCustomers the number of
distinct non-null customer values, and avgOrder totalSales/totalOrders
guarded to 0 when the row count is zero (never an undefined value). -/
theorem homeView_summary_metrics (df : Table) (dc cc ac : String)
    (hdc : firstMatch isDateName df.cols = Except.ok dc)
    (hcc : firstMatch isCustName df.cols = Except.ok cc)
    (hac : firstMatch isAmtName df.cols = Except.ok ac)
    (hne : df.isEmpty = false) :
    (homeResultOf df).map (fun r => r.totalSales)
      = some (ratSum ((((df.setCol dc coerceDateCell).setCol ac coerceAmtCell).col ac).map
          cellNum))
    ∧ (homeResultOf df).map (fun r => r.totalOrders) = some df.rows.length
    ∧ (homeResultOf df).map (fun r => r.totalCustomers)
      = some (((((df.setCol dc coerceDateCell).setCol ac coerceAmtCell).col cc).filter
          (fun c => c ≠ Cell.null)).dedup).length
    ∧ (homeResultOf df).map (fun r => r.avgOrder)
      = some (if df.rows.length = 0 then 0
          else ratDiv
            (ratSum ((((df.setCol dc coerceDateCell).setCol ac coerceAmtCell).col ac).map
              cellNum))
            (df.rows.length : Rat)) := by
  have h := homeView_eq_ok df dc cc ac hdc hcc hac hne
  have h2 := congrArg Prod.snd h
  have hlen : ((df.setCol dc coerceDateCell).setCol ac coerceAmtCell).rows.length
      = df.rows.length := by
    rw [setCol_rows_length, setCol_rows_length]
  unfold homeResultOf
  rw [h2]
  refine ⟨rfl, by simp [hlen], rfl, ?_⟩
  simp only [Option.map_some]
  congr 1
  rw [hlen]
  by_cases hz : df.rows.length = 0 <;> simp [hz]

/-- Witness for C6 on the spec's worked scenario (§8): 3 orders,
2 customers, total 15, average 5 after the bad amount cell coerces
to 0. -/
theorem homeView_summary_metrics_witness :
    (homeResultOf dfMut).map (fun r => r.totalOrders) = some dfMut.rows.length
    ∧ (homeResultOf dfMut).map (fun r => r.avgOrder)
      = some (if dfMut.rows.length = 0 then 0
          else ratDiv
            (ratSum ((((dfMut.setCol "Date" coerceDateCell).setCol "Total" coerceAmtCell).col
              "Total").map cellNum))
            (dfMut.rows.length : Rat)) :=
  ⟨(homeView_summary_metrics dfMut "Date" "Customer" "Total"
      (by decide) (by decide) (by decide) (by decide)).2.1,
    (homeView_summary_metrics dfMut "Date" "Customer" "Total"
      (by decide) (by decide) (by decide) (by decide)).2.2.2⟩

/-! ### Customer Profile claims -/

theorem seriesMaxDate_eq_none_iff (cells : List Cell) :
    seriesMaxDate cells = none ↔ ∀ c ∈ cells, dateVal c = none := by
  rw [← List.filterMap_eq_nil_iff]
  unfold seriesMaxDate maxNat?
  cases h : cells.filterMap dateVal with
  | nil => simp [h]
  | cons x xs => simp [h]

/-- The profile record produced by a Customer Profile run, `none` when
the page warned (empty table) or raised. -/
def profileResultOf (df : Table) (sel : Cell) : Option ProfileResult :=
  match (customerProfileView df sel).2 with
  | Except.ok r => r
  | Except.error _ => none

/-- The shape lemma for the Customer Profile page: with the three roles
resolved on a non-empty table, the page leaves behind the coerced table
and its outcome is `profileOutcome` over that table. -/
theorem customerProfileView_eq (df : Table) (sel : Cell) (cc ac dc : String)
    (hcc : firstMatch isCustName df.cols = Except.ok cc)
    (hac : firstMatch isAmtName df.cols = Except.ok ac)
    (hdc : firstMatch isDateName df.cols = Except.ok dc)
    (hne : df.isEmpty = false) :
    customerProfileView df sel
      = ((df.setCol ac coerceAmtCell).setCol dc coerceDateCell,
          profileOutcome ((df.setCol ac coerceAmtCell).setCol dc coerceDateCell) cc ac dc sel) := by
  simp [customerProfileView, hne, hcc, hac, hdc]

/-- The concrete table of C8's ValueError counterexample: both rows
belong to Ali and neither date parses, so the coerced date column is
all NaT. -/
def dfAllNaT : Table := try_read_csv "Date,Customer,Total\nbad,Ali,10\nworse,Ali,5"

/-- A table whose customer column mixes a missing value with strings:
`sorted(df[cust_col].unique())` on it compares a float NaN with a
string and raises `TypeError` at line 172. -/
def dfNullCust : Table := try_read_csv "Date,Customer,Total\n01/02/2024,,10\n02/02/2024,Bee,5"

/-- A table whose customer column is numeric (dtype inference): the
avatar markup calls `.replace` on a number and raises `AttributeError`
at line 181. -/
def dfNumCust : Table := try_read_csv "Date,Customer,Total\n01/02/2024,101,10\n02/02/2024,102,5"

/-- Counterexample to C8 as stated: exceptions do propagate out of the
Customer Profile page.  With all three roles resolved on non-empty
parsed tables: all-unparseable dates raise `ValueError` from
`NaT.date()` (line 187); a customer column mixing a missing value with
strings raises `TypeError` from `sorted(unique)` (line 172); a numeric
customer column raises `AttributeError` from `selected.replace` (line
181). -/
theorem customerProfile_exception_counterexample :
    dfAllNaT.isEmpty = false
    ∧ firstMatch isDateName dfAllNaT.cols = Except.ok "Date"
    ∧ (customerProfileView dfAllNaT (Cell.str "Ali")).2 = Except.error PyErr.valueError
    ∧ (customerProfileView dfNullCust (Cell.str "Bee")).2 = Except.error PyErr.typeError
    ∧ (customerProfileView dfNumCust (Cell.num 101)).2 = Except.error PyErr.attributeError := by
  decide

/-- C8 amended: the profile numbers themselves (lines 173–177) are
total — totalSpend the sum over the customer's rows, orderCount their
number, avgOrder guarded to 0 on zero rows, lastPurchaseDate the max of
the coerced dates, null exactly when every date of those rows is null —
but exceptions escape the page around them: `sorted(unique)` raises
`TypeError` when the customer column holds mutually incomparable values
(line 172); otherwise a non-string selection raises `AttributeError`
from the avatar markup (line 181, evaluated before the date); and for a
string selection the page raises `ValueError` exactly when all the
filtered rows' dates are null (`NaT.date()`, line 187) — in the one
case where the claim wants a null lastPurchaseDate surfaced, the view
raises instead. -/
theorem customerProfile_totals_and_escaping_errors (df : Table) (sel : Cell)
    (cc ac dc : String)
    (hcc : firstMatch isCustName df.cols = Except.ok cc)
    (hac : firstMatch isAmtName df.cols = Except.ok ac)
    (hdc : firstMatch isDateName df.cols = Except.ok dc)
    (hne : df.isEmpty = false) :
    (sortUniqueRaises (((df.setCol ac coerceAmtCell).setCol dc coerceDateCell).col cc) = true →
        (customerProfileView df sel).2 = Except.error PyErr.typeError)
    ∧ (sortUniqueRaises (((df.setCol ac coerceAmtCell).setCol dc coerceDateCell).col cc) = false →
        ∀ e : PyErr, renderSelected sel = Except.error e →
          (customerProfileView df sel).2 = Except.error e)
    ∧ (sortUniqueRaises (((df.setCol ac coerceAmtCell).setCol dc coerceDateCell).col cc) = false →
        ∀ s : String, sel = Cell.str s →
          (((customerProfileView df sel).2 = Except.error PyErr.valueError
              ↔ ∀ r ∈ profileRows ((df.setCol ac coerceAmtCell).setCol dc coerceDateCell) cc sel,
                  dateVal (cellAt r
                    (((df.setCol ac coerceAmtCell).setCol dc coerceDateCell).colIdx dc)) = none)
            ∧ (profileResultOf df sel).map (fun p => (p.totalSpend, p.orderCount, p.avgOrder,
                  p.lastPurchase))
              = (profileLastPurchase ((df.setCol ac coerceAmtCell).setCol dc coerceDateCell) cc dc
                  sel).map (fun d =>
                    (profileSpend ((df.setCol ac coerceAmtCell).setCol dc coerceDateCell) cc ac
                      sel,
                    (profileRows ((df.setCol ac coerceAmtCell).setCol dc coerceDateCell) cc
                      sel).length,
                    (if (profileRows ((df.setCol ac coerceAmtCell).setCol dc coerceDateCell) cc
                        sel).length = 0 then 0
                      else ratDiv
                        (profileSpend ((df.setCol ac coerceAmtCell).setCol dc coerceDateCell) cc
                          ac sel)
                        ((profileRows ((df.setCol ac coerceAmtCell).setCol dc coerceDateCell) cc
                            sel).length : Rat)),
                    some d)))) := by
  have hview := customerProfileView_eq df sel cc ac dc hcc hac hdc hne
  have h2 : (customerProfileView df sel).2
      = profileOutcome ((df.setCol ac coerceAmtCell).setCol dc coerceDateCell) cc ac dc sel := by
    rw [hview]
  refine ⟨?_, ?_, ?_⟩
  · intro hs
    rw [h2]
    unfold profileOutcome
    rw [if_pos hs]
  · intro hs e he
    rw [h2]
    unfold profileOutcome
    rw [if_neg (by simp [hs]), he]
  · intro hs s hsel
    subst hsel
    have hnull : (profileLastPurchase ((df.setCol ac coerceAmtCell).setCol dc coerceDateCell) cc
        dc (Cell.str s) = none)
        ↔ ∀ r ∈ profileRows ((df.setCol ac coerceAmtCell).setCol dc coerceDateCell) cc
            (Cell.str s),
            dateVal (cellAt r
              (((df.setCol ac coerceAmtCell).setCol dc coerceDateCell).colIdx dc)) = none := by
      unfold profileLastPurchase
      rw [seriesMaxDate_eq_none_iff]
      constructor
      · intro h r hr
        exact h _ (List.mem_map_of_mem _ hr)
      · intro h c hc
        obtain ⟨r, hr, rfl⟩ := List.mem_map.mp hc
        exact h r hr
    unfold profileResultOf
    rw [h2]
    unfold profileOutcome
    rw [if_neg (by simp [hs])]
    simp only [renderSelected]
    cases hlp : profileLastPurchase ((df.setCol ac coerceAmtCell).setCol dc coerceDateCell) cc dc
        (Cell.str s) with
    | none =>
      rw [hlp] at hnull
      constructor
      · simpa [renderLastPurchase] using hnull.mp rfl
      · simp [renderLastPurchase]
    | some d =>
      constructor
      · simp only [renderLastPurchase]
        constructor
        · intro h
          exact absurd h (by simp)
        · intro h
          exact absurd (hnull.mpr h) (by simp [hlp])
      · simp only [renderLastPurchase, Option.map_some]
        by_cases hz :
          (profileRows ((df.setCol ac coerceAmtCell).setCol dc coerceDateCell) cc
            (Cell.str s)).length = 0
          <;> simp [hz, hlp]

/-- Witness for the amended C8: on the concrete table whose customer
column is homogeneous strings and whose selected customer has a
parseable date, the view does not raise `ValueError`. -/
theorem customerProfile_totals_witness :
    (customerProfileView dfMut (Cell.str "Ali")).2 ≠ Except.error PyErr.valueError :=
  fun h =>
    absurd
      (((customerProfile_totals_and_escaping_errors dfMut (Cell.str "Ali")
          "Customer" "Total" "Date" (by decide) (by decide) (by decide) (by decide)).2.2
        (by decide) "Ali" rfl).1.mp h)
      (by decide)

/-- C4 amended: the aggregations only read the table, but both views
that coerce — Home (lines 136–137) and Customer Profile (lines
169–170) — do mutate the session-held table: after either view runs
(whether it then renders or raises), the caller observes the input
table with exactly the date and amount columns coerced in place;
the header, the row count and every other column are unchanged. -/
theorem views_mutate_only_coerced_columns (df : Table) (dc cc ac : String)
    (hdc : firstMatch isDateName df.cols = Except.ok dc)
    (hcc : firstMatch isCustName df.cols = Except.ok cc)
    (hac : firstMatch isAmtName df.cols = Except.ok ac)
    (hne : df.isEmpty = false) :
    ((homeView df).1 = (df.setCol dc coerceDateCell).setCol ac coerceAmtCell
      ∧ (homeView df).1.cols = df.cols
      ∧ (homeView df).1.rows.length = df.rows.length
      ∧ ∀ j : Nat, j ≠ df.colIdx dc → j ≠ df.colIdx ac →
          (homeView df).1.colAt j = df.colAt j)
    ∧ ∀ sel : Cell,
        (customerProfileView df sel).1 = (df.setCol ac coerceAmtCell).setCol dc coerceDateCell
        ∧ (customerProfileView df sel).1.cols = df.cols
        ∧ (customerProfileView df sel).1.rows.length = df.rows.length
        ∧ ∀ j : Nat, j ≠ df.colIdx dc → j ≠ df.colIdx ac →
            (customerProfileView df sel).1.colAt j = df.colAt j := by
  constructor
  · have h1 : (homeView df).1 = (df.setCol dc coerceDateCell).setCol ac coerceAmtCell := by
      rw [homeView_eq_ok df dc cc ac hdc hcc hac hne]
    refine ⟨h1, by rw [h1]; rfl, ?_, ?_⟩
    · rw [h1, setCol_rows_length, setCol_rows_length]
    · intro j hjd hja
      rw [h1,
        colAt_setCol_ne _ _ _ (show j ≠ (df.setCol dc coerceDateCell).colIdx ac from hja),
        colAt_setCol_ne _ _ _ hjd]
  · intro sel
    have h1 : (customerProfileView df sel).1
        = (df.setCol ac coerceAmtCell).setCol dc coerceDateCell := by
      rw [customerProfileView_eq df sel cc ac dc hcc hac hdc hne]
    refine ⟨h1, by rw [h1]; rfl, ?_, ?_⟩
    · rw [h1, setCol_rows_length, setCol_rows_length]
    · intro j hjd hja
      rw [h1,
        colAt_setCol_ne _ _ _ (show j ≠ (df.setCol ac coerceAmtCell).colIdx dc from hjd),
        colAt_setCol_ne _ _ _ hja]

/-- Witness for the amended C4: on the concrete mutated table, the
customer column (index 1) is untouched by both views. -/
theorem views_mutate_only_coerced_columns_witness :
    dfMut.isEmpty = false
    ∧ (homeView dfMut).1.colAt 1 = dfMut.colAt 1
    ∧ (customerProfileView dfMut (Cell.str "Ali")).1.colAt 1 = dfMut.colAt 1 :=
  ⟨by decide,
    (views_mutate_only_coerced_columns dfMut "Date" "Customer" "Total"
      (by decide) (by decide) (by decide) (by decide)).1.2.2.2 1 (by decide) (by decide),
    ((views_mutate_only_coerced_columns dfMut "Date" "Customer" "Total"
      (by decide) (by decide) (by decide) (by decide)).2 (Cell.str "Ali")).2.2.2 1
      (by decide) (by decide)⟩

/-! ### Helper lemmas about grouped sums -/

theorem sum_map_filter_split {α : Type} (p : α → Bool) (f : α → Rat) :
    ∀ l : List α,
      ((l.filter p).map f).sum + ((l.filter (fun a => !p a)).map f).sum = (l.map f).sum
  | [] => by simp
  | x :: l => by
    cases hx : p x <;>
      simp only [List.filter_cons, hx, Bool.not_true, Bool.not_false, if_pos, if_neg,
        Bool.false_eq_true, ite_true, ite_false, List.map_cons, List.sum_cons] <;>
      rw [← sum_map_filter_split p f l] <;> ring

theorem sumFor_eq (ps : List (Cell × Rat)) (k : Cell) :
    sumFor ps k = ((ps.filter (fun p => p.1 = k)).map (fun p => p.2)).sum := by
  unfold sumFor
  rw [ratSum_eq]

theorem sum_sumFor :
    ∀ (keys : List Cell) (ps : List (Cell × Rat)), keys.Nodup → (∀ p ∈ ps, p.1 ∈ keys) →
      (keys.map (fun k => sumFor ps k)).sum = (ps.map (fun p => p.2)).sum
  | [], ps, _, hmem => by
    have hnil : ps = [] :=
      List.eq_nil_iff_forall_not_mem.mpr fun p hp => absurd (hmem p hp) (List.not_mem_nil _)
    subst hnil
    simp
  | k :: keys, ps, hnd, hmem => by
    rw [List.map_cons, List.sum_cons]
    have hk : k ∉ keys := (List.nodup_cons.mp hnd).1
    have hnd' : keys.Nodup := (List.nodup_cons.mp hnd).2
    have hcong : ∀ k' ∈ keys,
        sumFor ps k' = sumFor (ps.filter (fun p => !(p.1 = k))) k' := by
      intro k' hk'
      have hkk : k' ≠ k := fun e => hk (e ▸ hk')
      unfold sumFor
      rw [List.filter_filter]
      refine congrArg ratSum (congrArg (List.map fun p : Cell × Rat => p.2) ?_)
      refine List.filter_congr fun a ha => ?_
      by_cases h : a.1 = k'
      · simp [h, hkk]
      · simp [h]
    have hbs : ∀ p ∈ ps.filter (fun p => !(p.1 = k)), p.1 ∈ keys := by
      intro p hp
      have h1 := List.mem_filter.mp hp
      have h2 : p.1 ≠ k := by simpa using h1.2
      rcases List.mem_cons.mp (hmem p h1.1) with h | h
      · exact absurd h h2
      · exact h
    rw [List.map_congr_left hcong,
      sum_sumFor keys (ps.filter (fun p => !(p.1 = k))) hnd' hbs]
    have hsplit := sum_map_filter_split (fun p => p.1 = k) (fun p => p.2) ps
    rw [sumFor_eq]
    linarith [hsplit]

theorem groupbySum_keys_nodup (pairs : List (Cell × Rat)) :
    (List.insertionSort cellRel
      ((pairs.filter (fun p => p.1 ≠ Cell.null)).map (fun p => p.1)).dedup).Nodup :=
  (List.perm_insertionSort cellRel _).symm.nodup (List.nodup_dedup _)

theorem groupbySum_sum (pairs : List (Cell × Rat)) :
    ((groupbySum pairs).map (fun p => p.2)).sum
      = ((pairs.filter (fun p => p.1 ≠ Cell.null)).map (fun p => p.2)).sum := by
  unfold groupbySum
  rw [List.map_map]
  show ((List.insertionSort cellRel
      ((pairs.filter (fun p => p.1 ≠ Cell.null)).map (fun p => p.1)).dedup).map
        (fun k => sumFor (pairs.filter (fun p => p.1 ≠ Cell.null)) k)).sum = _
  refine sum_sumFor _ _ (groupbySum_keys_nodup pairs) fun p hp => ?_
  rw [List.mem_insertionSort, List.mem_dedup]
  exact List.mem_map_of_mem _ hp

theorem groupbySum_pairwise_fst_lt (pairs : List (Cell × Rat)) :
    (groupbySum pairs).Pairwise (fun a b => cellLT a.1 b.1) := by
  unfold groupbySum
  rw [List.pairwise_map]
  exact List.Pairwise.and (List.sorted_insertionSort cellRel _) (groupbySum_keys_nodup pairs)

theorem mem_groupbySum {pairs : List (Cell × Rat)} {p : Cell × Rat}
    (h : p ∈ groupbySum pairs) :
    p.1 ≠ Cell.null
    ∧ p.2 = sumFor (pairs.filter (fun q => q.1 ≠ Cell.null)) p.1
    ∧ p.1 ∈ pairs.map (fun q => q.1) := by
  unfold groupbySum at h
  obtain ⟨k, hk, rfl⟩ := List.mem_map.mp h
  rw [List.mem_insertionSort, List.mem_dedup] at hk
  obtain ⟨q, hq, rfl⟩ := List.mem_map.mp hk
  have hqf := List.mem_filter.mp hq
  refine ⟨by simpa using hqf.2, rfl, ?_⟩
  show q.1 ∈ pairs.map fun q => q.1
  exact List.mem_map_of_mem _ hqf.1

theorem mem_groupbySum_keys {pairs : List (Cell × Rat)} {k : Cell} (hk : k ≠ Cell.null)
    (h : k ∈ pairs.map (fun p => p.1)) :
    k ∈ (groupbySum pairs).map (fun p => p.1) := by
  unfold groupbySum
  rw [List.map_map]
  show k ∈ (List.insertionSort cellRel
    ((pairs.filter (fun p => p.1 ≠ Cell.null)).map (fun p => p.1)).dedup).map (fun k => k)
  rw [List.map_id', List.mem_insertionSort, List.mem_dedup]
  obtain ⟨q, hq, rfl⟩ := List.mem_map.mp h
  exact List.mem_map_of_mem _ (List.mem_filter.mpr ⟨hq, by simpa using hk⟩)

/-! ### Aggregation claims -/

/-- C7: the top-N aggregation shared by Top 10 Customers and Top
Products never exceeds its limit, lists its per-group sums in
non-increasing order, and — before truncation — the group sums add up
to exactly the amount column restricted to rows with a non-null
grouping key. -/
theorem topGroups_bounded_sorted_conserving (t : Table) (keyCol amtCol : String)
    (limit : Nat) :
    (topGroups limit (keyedPairs t keyCol amtCol)).length ≤ limit
    ∧ (∀ (i j : Nat) (hi : i < (topGroups limit (keyedPairs t keyCol amtCol)).length)
        (hj : j < (topGroups limit (keyedPairs t keyCol amtCol)).length), i < j →
          ((topGroups limit (keyedPairs t keyCol amtCol)).get ⟨j, hj⟩).2
            ≤ ((topGroups limit (keyedPairs t keyCol amtCol)).get ⟨i, hi⟩).2)
    ∧ ((groupbySum (keyedPairs t keyCol amtCol)).map (fun p => p.2)).sum
        = (((keyedPairs t keyCol amtCol).filter (fun p => p.1 ≠ Cell.null)).map
            (fun p => p.2)).sum := by
  refine ⟨?_, ?_, groupbySum_sum _⟩
  · unfold topGroups
    rw [List.length_take]
    exact inf_le_left
  · have hs : (topGroups limit (keyedPairs t keyCol amtCol)).Pairwise descRel :=
      List.Pairwise.sublist (List.take_sublist _ _)
        (List.sorted_insertionSort descRel (groupbySum (keyedPairs t keyCol amtCol)))
    intro i j hi hj hij
    exact List.pairwise_iff_get.mp hs ⟨i, hi⟩ ⟨j, hj⟩ hij

/-- The concrete table of C7's witness. -/
def dfTopW : Table := try_read_csv "Customer,Total\nB,5\nA,7\nB,4"

/-- Witness for C7: on a concrete two-group table the second entry's
sum does not exceed the first. -/
theorem topGroups_bounded_sorted_conserving_witness :
    ((topGroups 10 (keyedPairs dfTopW "Customer" "Total")).get ⟨1, by decide⟩).2
      ≤ ((topGroups 10 (keyedPairs dfTopW "Customer" "Total")).get ⟨0, by decide⟩).2 :=
  (topGroups_bounded_sorted_conserving dfTopW "Customer" "Total" 10).2.1 0 1
    (by decide) (by decide) (by decide)

/-- The concrete post-coercion table of C3's counterexample: the first
row's date failed to parse (NaT), the second parsed. -/
def dfDropNaT : Table :=
  (homeView (try_read_csv "Date,Customer,Total\nbad,Ali,10\n01/02/2024,Ali,5")).1

/-- Counterexample to C3 as stated: the null-date row is silently
dropped by the groupby, not kept as a last-placed bucket as the claim
requires. -/
theorem trend_drops_null_bucket_counterexample :
    trendByDate dfDropNaT "Date" "Total" = [(Cell.date 20240201, (5 : Rat))]
    ∧ trendByDateSpecified dfDropNaT "Date" "Total"
        = [(Cell.date 20240201, (5 : Rat)), (Cell.null, (10 : Rat))]
    ∧ trendByDate dfDropNaT "Date" "Total" ≠ trendByDateSpecified dfDropNaT "Date" "Total" := by
  decide

/-- C3 amended: the trend aggregation groups rows by date and sums the
amount per group in strictly ascending date order, but rows whose date
failed to parse are dropped by the groupby (pandas `dropna=True`) — no
null bucket appears, last or otherwise; every non-null date value does
appear as a bucket. -/
theorem trendByDate_drops_null_sorted_summed (t : Table) (dateCol amtCol : String) :
    (∀ p ∈ trendByDate t dateCol amtCol,
        p.1 ≠ Cell.null
        ∧ p.2 = sumFor ((keyedPairs t dateCol amtCol).filter (fun q => q.1 ≠ Cell.null)) p.1)
    ∧ (trendByDate t dateCol amtCol).Pairwise (fun a b => cellLT a.1 b.1)
    ∧ ∀ k : Cell, k ≠ Cell.null →
        (k ∈ (trendByDate t dateCol amtCol).map (fun p => p.1)
          ↔ k ∈ (keyedPairs t dateCol amtCol).map (fun p => p.1)) := by
  unfold trendByDate
  refine ⟨fun p hp => ⟨(mem_groupbySum hp).1, (mem_groupbySum hp).2.1⟩,
    groupbySum_pairwise_fst_lt _, fun k hk => ⟨fun h => ?_, mem_groupbySum_keys hk⟩⟩
  obtain ⟨p, hp, rfl⟩ := List.mem_map.mp h
  exact (mem_groupbySum hp).2.2

/-- Witness for the amended C3: the parsed date of the concrete table
appears as a trend bucket. -/
theorem trendByDate_drops_null_sorted_summed_witness :
    Cell.date 20240201 ∈ (trendByDate dfDropNaT "Date" "Total").map (fun p => p.1) :=
  ((trendByDate_drops_null_sorted_summed dfDropNaT "Date" "Total").2.2
    (Cell.date 20240201) (by decide)).mpr (by decide)

/-- The concrete table of C5's counterexample: customer B appears
before customer A in the source and their sums tie. -/
def dfTie : Table := try_read_csv "Customer,Total\nB,5\nA,5"

/-- Counterexample to C5 as stated: with equal sums the code lists A
before B (the groupby pre-sorts keys ascending), not the
first-encountered source order B before A that the claim requires. -/
theorem topGroups_tie_order_counterexample :
    topGroups 10 (keyedPairs dfTie "Customer" "Total")
      = [(Cell.str "A", (5 : Rat)), (Cell.str "B", (5 : Rat))]
    ∧ topGroupsSpecified 10 (keyedPairs dfTie "Customer" "Total")
      = [(Cell.str "B", (5 : Rat)), (Cell.str "A", (5 : Rat))]
    ∧ topGroups 10 (keyedPairs dfTie "Customer" "Total")
      ≠ topGroupsSpecified 10 (keyedPairs dfTie "Customer" "Total") := by
  decide

/-- C5 amended: the top-N aggregation groups by the key column
(dropping null keys), sums the amount per group, sorts the groups by
descending sum and truncates to the limit (10 for customers, 20 for
products); the counterexample shows the tie order is not the
first-encountered source order (there the pipeline lists the tied keys
in ascending key order), and the program guarantees no particular tie
order in general, since `sort_values`' default quicksort is unstable
outside numpy's small-array regime. -/
theorem topGroups_grouped_summed_descending (t : Table) (keyCol amtCol : String)
    (limit : Nat) :
    (∀ p ∈ topGroups limit (keyedPairs t keyCol amtCol),
        p.1 ≠ Cell.null
        ∧ p.2 = sumFor ((keyedPairs t keyCol amtCol).filter (fun q => q.1 ≠ Cell.null)) p.1)
    ∧ (topGroups limit (keyedPairs t keyCol amtCol)).length ≤ limit
    ∧ ∀ (i j : Nat) (hi : i < (topGroups limit (keyedPairs t keyCol amtCol)).length)
        (hj : j < (topGroups limit (keyedPairs t keyCol amtCol)).length), i < j →
          ((topGroups limit (keyedPairs t keyCol amtCol)).get ⟨j, hj⟩).2
            ≤ ((topGroups limit (keyedPairs t keyCol amtCol)).get ⟨i, hi⟩).2 := by
  refine ⟨?_, ?_, ?_⟩
  · intro p hp
    have hp' : p ∈ sortDescBySum (groupbySum (keyedPairs t keyCol amtCol)) :=
      (List.take_sublist _ _).subset hp
    rw [sortDescBySum, List.mem_insertionSort] at hp'
    exact ⟨(mem_groupbySum hp').1, (mem_groupbySum hp').2.1⟩
  · unfold topGroups
    rw [List.length_take]
    exact inf_le_left
  · have hdesc : (topGroups limit (keyedPairs t keyCol amtCol)).Pairwise descRel :=
      List.Pairwise.sublist (List.take_sublist _ _)
        (List.sorted_insertionSort descRel (groupbySum (keyedPairs t keyCol amtCol)))
    intro i j hi hj hij
    exact List.pairwise_iff_get.mp hdesc ⟨i, hi⟩ ⟨j, hj⟩ hij

/-- Witness for the amended C5 on the concrete tie table: the output
has two tied groups and their sums are (weakly) descending. -/
theorem topGroups_grouped_summed_descending_witness :
    ((topGroups 10 (keyedPairs dfTie "Customer" "Total")).get ⟨1, by decide⟩).2
      ≤ ((topGroups 10 (keyedPairs dfTie "Customer" "Total")).get ⟨0, by decide⟩).2 :=
  (topGroups_grouped_summed_descending dfTie "Customer" "Total" 10).2.2 0 1
    (by decide) (by decide) (by decide)
